import Mathlib

/-!
Verification of the veterinary-clinic backend (`app/` package).

The Python source is shallowly embedded: each SQLAlchemy table becomes a
Lean structure holding the columns the verified operations read or write,
a database table becomes a `List` of rows, `query(...).filter(pk == id).first()`
becomes `List.find?`, and a CRUD method that mutates a row and commits becomes
a pure function from the table list to the table list.  Timestamps are
modelled as `Nat`, SQL NULL as `Option`.
-/

namespace VetClinic

/-- Python truthiness of an optional number (`if x:`): `None` and `0` are falsy. -/
def pyTruthy : Option Nat → Bool
  | none => false
  | some n => n != 0

/-- `d.get(k, default)` on a Python dict built by pydantic's `.dict()`: the key
is always present (possibly with value `None`), so the stored value is returned
and the default is dead code.  `present` records whether the key is in the dict. -/
def pyDictGet (present : Bool) (v : Option Nat) (default : Nat) : Option Nat :=
  if present then v else some default

/-- Mutate the first row matching `p` (the ORM mutates the object returned
by `first()` and commits; later duplicates are untouched). -/
def updateFirst (p : α → Bool) (f : α → α) : List α → List α
  | [] => []
  | x :: rest => if p x then f x :: rest else x :: updateFirst p f rest

/-- `AUTO_INCREMENT` primary key for a newly inserted row, modelled as one
more than the largest id in the table. -/
def nextId (ids : List Nat) : Nat := ids.foldr max 0 + 1

/-! ## `app/models/usuario.py` -/

/-- Row of the `usuarios` table (columns used by `CRUDAuth`; `fecha_creacion`
and the profile relationships are not needed by the verified operations). -/
structure Usuario where
  id_usuario : Nat
  username : String
  contrasena : String
  tipo_usuario : String
  estado : String
  deriving Repr, DecidableEq

/-! ## `app/crud/auth_crud.py` -/

/-- The module-level permissions dictionary of
`CRUDAuth._get_user_permissions`, as an association list per role;
`permissions.get(tipo_usuario, {})` returns `[]` for an unknown role. -/
def get_user_permissions (tipo_usuario : String) : List (String × Bool) :=
  if tipo_usuario = "Administrador" then
    [("ver_dashboard", true), ("gestionar_usuarios", true),
     ("gestionar_clientes", true), ("gestionar_mascotas", true),
     ("gestionar_veterinarios", true), ("gestionar_recepcionistas", true),
     ("ver_reportes", true), ("gestionar_catalogos", true),
     ("realizar_triaje", true), ("realizar_consultas", true),
     ("gestionar_citas", true), ("ver_historial", true),
     ("configurar_sistema", true)]
  else if tipo_usuario = "Veterinario" then
    [("ver_dashboard", true), ("gestionar_usuarios", false),
     ("gestionar_clientes", true), ("gestionar_mascotas", true),
     ("gestionar_veterinarios", false), ("gestionar_recepcionistas", false),
     ("ver_reportes", true), ("gestionar_catalogos", false),
     ("realizar_triaje", true), ("realizar_consultas", true),
     ("gestionar_citas", true), ("ver_historial", true),
     ("configurar_sistema", false)]
  else if tipo_usuario = "Recepcionista" then
    [("ver_dashboard", false), ("gestionar_usuarios", false),
     ("gestionar_clientes", true), ("gestionar_mascotas", true),
     ("gestionar_veterinarios", false), ("gestionar_recepcionistas", false),
     ("ver_reportes", false), ("gestionar_catalogos", false),
     ("realizar_triaje", false), ("realizar_consultas", false),
     ("gestionar_citas", true), ("ver_historial", false),
     ("configurar_sistema", false)]
  else []

/-- `CRUDAuth.verify_permission`: `permisos.get(permission, False)`. -/
def verify_permission (user_type : String) (permission : String) : Bool :=
  ((get_user_permissions user_type).lookup permission).getD false

/-- `CRUDAuth.authenticate_user`: query filtered on `username == username`
and `estado == "Activo"`, take `first()`, then compare `contraseña`.
The result dict is modelled by the user together with its permission map
(the profile lookup only decorates the dict and cannot change `None`-ness). -/
def authenticate_user (usuarios : List Usuario) (username password : String) :
    Option (Usuario × List (String × Bool)) :=
  match usuarios.find? (fun u => u.username = username && u.estado = "Activo") with
  | none => none
  | some usuario =>
      if usuario.contrasena ≠ password then none
      else some (usuario, get_user_permissions usuario.tipo_usuario)

/-- Overwrite the `contraseña` of the first row whose `id_usuario` matches,
leaving every other row untouched (the ORM mutates the object returned by
`first()` and commits). -/
def setPasswordById (usuarios : List Usuario) (uid : Nat) (pw : String) :
    List Usuario :=
  updateFirst (fun u => u.id_usuario = uid)
    (fun u => { u with contrasena := pw }) usuarios

/-- Overwrite the `contraseña` of the first row whose `username` matches. -/
def setPasswordByUsername (usuarios : List Usuario) (uname pw : String) :
    List Usuario :=
  updateFirst (fun u => u.username = uname)
    (fun u => { u with contrasena := pw }) usuarios

/-- `CRUDAuth.change_password`: look the user up by id, reject when missing,
when the current password mismatches, or when the new password is shorter
than 3 characters (in that order); otherwise store the new password. -/
def change_password (usuarios : List Usuario) (user_id : Nat)
    (current_password new_password : String) : (Bool × String) × List Usuario :=
  match usuarios.find? (fun u => u.id_usuario = user_id) with
  | none => ((false, "Usuario no encontrado"), usuarios)
  | some usuario =>
      if usuario.contrasena ≠ current_password then
        ((false, "Contraseña actual incorrecta"), usuarios)
      else if new_password.length < 3 then
        ((false, "La nueva contraseña debe tener al menos 3 caracteres"), usuarios)
      else
        ((true, "Contraseña cambiada exitosamente"),
         setPasswordById usuarios user_id new_password)

/-- `CRUDAuth.reset_password`: look the user up by username (no `estado`
filter, no old-password check), reject only a missing user or a new password
shorter than 3 characters; otherwise store the new password. -/
def reset_password (usuarios : List Usuario) (username new_password : String) :
    (Bool × String) × List Usuario :=
  match usuarios.find? (fun u => u.username = username) with
  | none => ((false, "Usuario no encontrado"), usuarios)
  | some _ =>
      if new_password.length < 3 then
        ((false, "La contraseña debe tener al menos 3 caracteres"), usuarios)
      else
        ((true, "Contraseña reseteada exitosamente"),
         setPasswordByUsername usuarios username new_password)

/-! ## Data model of the clinical workflow
(`app/models/solicitud_atencion.py`, `triaje.py`, `veterinario.py`,
`consulta.py`, `historial_clinico.py`, `diagnostico.py`, `cita.py`,
`mascota.py`, `recepcionista.py`).  Each structure holds the columns read or
written by the verified operations; purely descriptive columns are elided. -/

/-- Row of `Solicitud_atencion`. -/
structure SolicitudAtencion where
  id_solicitud : Nat
  id_mascota : Nat
  id_recepcionista : Nat
  fecha_hora_solicitud : Option Nat
  tipo_solicitud : String
  estado : String
  deriving Repr, DecidableEq

/-- Row of `Triaje` (vital-sign columns other than `peso_mascota` elided). -/
structure Triaje where
  id_triaje : Nat
  id_solicitud : Nat
  id_veterinario : Nat
  peso_mascota : Nat
  deriving Repr, DecidableEq

/-- Row of `Veterinario` (personal-data columns elided). -/
structure Veterinario where
  id_veterinario : Nat
  id_usuario : Nat
  disposicion : String
  deriving Repr, DecidableEq

/-- Row of `Consulta`. -/
structure Consulta where
  id_consulta : Nat
  id_triaje : Nat
  id_veterinario : Nat
  tipo_consulta : String
  fecha_consulta : Option Nat
  motivo_consulta : Option String
  sintomas_observados : Option String
  diagnostico_preliminar : Option String
  observaciones : Option String
  condicion_general : String
  es_seguimiento : Bool
  deriving Repr, DecidableEq

/-- Row of `Historial_clinico` (`id_tratamiento`, `edad_meses`,
`observaciones` elided: `add_evento_consulta` never sets them). -/
structure HistorialClinico where
  id_historial : Nat
  id_mascota : Nat
  id_consulta : Option Nat
  id_diagnostico : Option Nat
  id_veterinario : Option Nat
  fecha_evento : Option Nat
  tipo_evento : String
  descripcion_evento : String
  peso_momento : Option Nat
  deriving Repr, DecidableEq

/-- Row of `Diagnostico` (only its presence matters: `create_consulta`
never writes this table). -/
structure Diagnostico where
  id_diagnostico : Nat
  deriving Repr, DecidableEq

/-- Row of `Cita` (foreign keys and descriptive columns elided). -/
structure Cita where
  id_cita : Nat
  fecha_hora_programada : Nat
  estado_cita : String
  deriving Repr, DecidableEq

/-- Row of `Mascota` (the endpoints only test existence). -/
structure Mascota where
  id_mascota : Nat
  deriving Repr, DecidableEq

/-- Row of `Recepcionista` (the endpoints only test existence). -/
structure Recepcionista where
  id_recepcionista : Nat
  deriving Repr, DecidableEq

/-- The relational store seen by the consulta endpoints, one list per table. -/
structure DB where
  mascotas : List Mascota
  recepcionistas : List Recepcionista
  solicitudes : List SolicitudAtencion
  triajes : List Triaje
  veterinarios : List Veterinario
  consultas : List Consulta
  historial : List HistorialClinico
  diagnosticos : List Diagnostico
  deriving Repr, DecidableEq

/-! ## `app/crud/consulta_crud.py` and `app/crud/veterinario_crud.py` -/

/-- `CRUDSolicitudAtencion.cambiar_estado`: `get` the solicitud by primary
key; when present overwrite `estado` with `nuevo_estado` (no check of the
prior state) and commit; returns the refreshed row, or `none`. -/
def cambiar_estado (solicitudes : List SolicitudAtencion) (solicitud_id : Nat)
    (nuevo_estado : String) : Option SolicitudAtencion × List SolicitudAtencion :=
  match solicitudes.find? (fun s => s.id_solicitud = solicitud_id) with
  | none => (none, solicitudes)
  | some s =>
      (some { s with estado := nuevo_estado },
       updateFirst (fun x => x.id_solicitud = solicitud_id)
         (fun x => { x with estado := nuevo_estado }) solicitudes)

/-- `CRUDVeterinario.cambiar_disposicion`: `get` by primary key; when present
overwrite `disposicion` and commit. -/
def cambiar_disposicion (veterinarios : List Veterinario) (veterinario_id : Nat)
    (nueva_disposicion : String) : Option Veterinario × List Veterinario :=
  match veterinarios.find? (fun v => v.id_veterinario = veterinario_id) with
  | none => (none, veterinarios)
  | some v =>
      (some { v with disposicion := nueva_disposicion },
       updateFirst (fun x => x.id_veterinario = veterinario_id)
         (fun x => { x with disposicion := nueva_disposicion }) veterinarios)

/-- `CRUDCita.cancelar_cita`: only a `Programada` cita is set to `Cancelada`;
any other existing cita is returned unchanged. -/
def cancelar_cita (citas : List Cita) (cita_id : Nat) : Option Cita × List Cita :=
  match citas.find? (fun c => c.id_cita = cita_id) with
  | none => (none, citas)
  | some c =>
      if c.estado_cita = "Programada" then
        (some { c with estado_cita := "Cancelada" },
         updateFirst (fun x => x.id_cita = cita_id)
           (fun x => { x with estado_cita := "Cancelada" }) citas)
      else (some c, citas)

/-- `CRUDCita.marcar_atendida`: only a `Programada` cita is set to `Atendida`. -/
def marcar_atendida (citas : List Cita) (cita_id : Nat) : Option Cita × List Cita :=
  match citas.find? (fun c => c.id_cita = cita_id) with
  | none => (none, citas)
  | some c =>
      if c.estado_cita = "Programada" then
        (some { c with estado_cita := "Atendida" },
         updateFirst (fun x => x.id_cita = cita_id)
           (fun x => { x with estado_cita := "Atendida" }) citas)
      else (some c, citas)

/-- `CRUDCita.verificar_disponibilidad`: the slot is free when no `Programada`
cita sits at exactly `fecha_hora`; the `exclude_id` filter is applied only
when `exclude_id` is truthy (`if exclude_id:` — `None` and `0` skip it). -/
def verificar_disponibilidad (citas : List Cita) (fecha_hora : Nat)
    (exclude_id : Option Nat) : Bool :=
  let q := citas.filter
    (fun c => c.fecha_hora_programada = fecha_hora && c.estado_cita = "Programada")
  let q := if pyTruthy exclude_id then
             q.filter (fun c => c.id_cita != exclude_id.getD 0)
           else q
  q.head?.isNone

/-- `CRUDCita.reprogramar_cita`: availability is checked (excluding the cita
itself) before the cita is even fetched; only an existing `Programada` cita
gets its `fecha_hora_programada` moved. -/
def reprogramar_cita (citas : List Cita) (cita_id : Nat) (nueva_fecha_hora : Nat) :
    Option Cita × List Cita :=
  if !verificar_disponibilidad citas nueva_fecha_hora (some cita_id) then
    (none, citas)
  else
    match citas.find? (fun c => c.id_cita = cita_id) with
    | none => (none, citas)
    | some c =>
        if c.estado_cita = "Programada" then
          (some { c with fecha_hora_programada := nueva_fecha_hora },
           updateFirst (fun x => x.id_cita = cita_id)
             (fun x => { x with fecha_hora_programada := nueva_fecha_hora }) citas)
        else (some c, citas)

/-- Python `a or b` on an optional string: `None` and `""` are falsy. -/
def pyOrStr : Option String → String → String
  | none, d => d
  | some s, d => if s = "" then d else s

/-- `CRUDHistorialClinico.add_evento_consulta` followed by `add_evento` and
`create`: inserts one `Consulta médica` event; `add_evento`'s
`evento_dict.get('fecha_evento', datetime.now())` sees the key present
(set to `now` by `add_evento_consulta`) and keeps it. -/
def add_evento_consulta (historial : List HistorialClinico)
    (mascota_id consulta_id veterinario_id : Nat) (descripcion : String)
    (peso_actual : Option Nat) (now : Nat) : List HistorialClinico :=
  historial ++
    [{ id_historial := nextId (historial.map (fun h => h.id_historial)),
       id_mascota := mascota_id,
       id_consulta := some consulta_id,
       id_diagnostico := none,
       id_veterinario := some veterinario_id,
       fecha_evento := pyDictGet true (some now) now,
       tipo_evento := "Consulta médica",
       descripcion_evento := descripcion,
       peso_momento := peso_actual }]

/-! ## `app/api/v1/endpoints/consultas.py` -/

/-- Outcome of a route handler: a JSON body with its HTTP status code, or an
`HTTPException` with its status code and detail. -/
inductive ApiResult (α : Type) where
  | ok (code : Nat) (value : α)
  | err (code : Nat) (detail : String)
  deriving Repr, DecidableEq

/-- `SolicitudAtencionCreate` request body (`app/schemas/consulta_schema.py`);
`fecha_hora_solicitud` is `Optional[datetime] = None`. -/
structure SolicitudAtencionCreate where
  id_mascota : Nat
  id_recepcionista : Nat
  tipo_solicitud : String
  fecha_hora_solicitud : Option Nat
  deriving Repr, DecidableEq

/-- `ConsultaCreate` request body; `fecha_consulta` is
`Optional[datetime] = None`. -/
structure ConsultaCreate where
  id_triaje : Nat
  id_veterinario : Nat
  tipo_consulta : String
  motivo_consulta : Option String
  sintomas_observados : Option String
  diagnostico_preliminar : Option String
  observaciones : Option String
  condicion_general : String
  es_seguimiento : Bool
  fecha_consulta : Option Nat
  deriving Repr, DecidableEq

/-- The `estados_validos` list of `actualizar_estado_solicitud`. -/
def estados_validos : List String :=
  ["Pendiente", "En triaje", "En atencion", "Completada", "Cancelada"]

/-- `PATCH /solicitudes/solicitud_id/estado` (`actualizar_estado_solicitud`):
reject an unknown state with 400 before touching the table, then delegate to
`cambiar_estado`; `None` from it becomes 404, otherwise 200 with the row. -/
def actualizar_estado_solicitud (solicitudes : List SolicitudAtencion)
    (solicitud_id : Nat) (nuevo_estado : String) :
    ApiResult SolicitudAtencion × List SolicitudAtencion :=
  if !(estados_validos.contains nuevo_estado) then
    (.err 400 "Estado inválido", solicitudes)
  else
    match cambiar_estado solicitudes solicitud_id nuevo_estado with
    | (none, s) => (.err 404 "Solicitud no encontrada", s)
    | (some actualizada, s) => (.ok 200 actualizada, s)

/-- `POST /solicitudes/` (`create_solicitud_atencion`): 400 when the mascota
or the recepcionista is missing; otherwise build the row from
`solicitud_data.dict()`, with
`solicitud_dict.get('fecha_hora_solicitud', datetime.now())` (the key is
always present, see `pyDictGet`), force `estado` to `Pendiente`, insert and
commit, and answer 201 with the new row. -/
def create_solicitud_atencion (db : DB) (inp : SolicitudAtencionCreate)
    (now : Nat) : ApiResult SolicitudAtencion × DB :=
  match db.mascotas.find? (fun m => m.id_mascota = inp.id_mascota) with
  | none => (.err 400 "Mascota no encontrada", db)
  | some _ =>
  match db.recepcionistas.find?
      (fun r => r.id_recepcionista = inp.id_recepcionista) with
  | none => (.err 400 "Recepcionista no encontrada", db)
  | some _ =>
      let nueva : SolicitudAtencion :=
        { id_solicitud := nextId (db.solicitudes.map (fun s => s.id_solicitud)),
          id_mascota := inp.id_mascota,
          id_recepcionista := inp.id_recepcionista,
          fecha_hora_solicitud := pyDictGet true inp.fecha_hora_solicitud now,
          tipo_solicitud := inp.tipo_solicitud,
          estado := "Pendiente" }
      (.ok 201 nueva, { db with solicitudes := db.solicitudes ++ [nueva] })

/-- The `Consulta` row built and inserted by `create_consulta`
(`consulta_dict['fecha_consulta'] = consulta_dict.get('fecha_consulta',
datetime.now())` keeps the client value, the key being always present). -/
def nuevaConsulta (db : DB) (inp : ConsultaCreate) (now : Nat) : Consulta :=
  { id_consulta := nextId (db.consultas.map (fun c => c.id_consulta)),
    id_triaje := inp.id_triaje,
    id_veterinario := inp.id_veterinario,
    tipo_consulta := inp.tipo_consulta,
    fecha_consulta := pyDictGet true inp.fecha_consulta now,
    motivo_consulta := inp.motivo_consulta,
    sintomas_observados := inp.sintomas_observados,
    diagnostico_preliminar := inp.diagnostico_preliminar,
    observaciones := inp.observaciones,
    condicion_general := inp.condicion_general,
    es_seguimiento := inp.es_seguimiento }

/-- The historial description string of `create_consulta`:
`f"Consulta: tipo. Motivo: motivo or no-especificado"`. -/
def descripcionConsulta (inp : ConsultaCreate) : String :=
  "Consulta: " ++ inp.tipo_consulta ++ ". Motivo: " ++
    pyOrStr inp.motivo_consulta "No especificado"

/-- `POST /` (`create_consulta`): three existence checks answering 400, then
four separately committed writes — `consulta.create`,
`veterinario.cambiar_disposicion("Ocupado")`,
`solicitud_atencion.cambiar_estado("En atencion")` and
`historial_clinico.add_evento_consulta` (the last two only when the triaje's
solicitud exists) — with no surrounding transaction. -/
def create_consulta (db : DB) (inp : ConsultaCreate) (now : Nat) :
    ApiResult Consulta × DB :=
  match db.triajes.find? (fun t => t.id_triaje = inp.id_triaje) with
  | none => (.err 400 "Triaje no encontrado", db)
  | some triaje_obj =>
  match db.veterinarios.find?
      (fun v => v.id_veterinario = inp.id_veterinario) with
  | none => (.err 400 "Veterinario no encontrado", db)
  | some _ =>
  match db.consultas.find? (fun c => c.id_triaje = inp.id_triaje) with
  | some _ => (.err 400 "Ya existe una consulta para este triaje", db)
  | none =>
      let nueva := nuevaConsulta db inp now
      -- commit 1: consulta.create
      let db1 := { db with consultas := db.consultas ++ [nueva] }
      -- commit 2: veterinario.cambiar_disposicion(..., "Ocupado")
      let db2 := { db1 with
        veterinarios :=
          (cambiar_disposicion db1.veterinarios inp.id_veterinario "Ocupado").2 }
      match db2.solicitudes.find?
          (fun s => s.id_solicitud = triaje_obj.id_solicitud) with
      | none => (.ok 201 nueva, db2)
      | some solicitud_obj =>
          -- commit 3: solicitud_atencion.cambiar_estado(..., "En atencion")
          let db3 := { db2 with
            solicitudes :=
              (cambiar_estado db2.solicitudes triaje_obj.id_solicitud
                "En atencion").2 }
          -- commit 4: historial_clinico.add_evento_consulta
          let peso := if triaje_obj.peso_mascota ≠ 0 then
                        some triaje_obj.peso_mascota
                      else none
          let db4 := { db3 with
            historial :=
              add_evento_consulta db3.historial solicitud_obj.id_mascota
                nueva.id_consulta inp.id_veterinario (descripcionConsulta inp)
                peso now }
          (.ok 201 nueva, db4)

/-- The chain of database states committed by `create_consulta`, starting from
the initial state: state after commit `k` is entry `k`.  An execution that
fails after `k` commits leaves the database at entry `k`, every earlier write
in place — there is no transaction to roll them back. -/
def create_consulta_states (db : DB) (inp : ConsultaCreate) (now : Nat) :
    List DB :=
  match db.triajes.find? (fun t => t.id_triaje = inp.id_triaje) with
  | none => [db]
  | some triaje_obj =>
  match db.veterinarios.find?
      (fun v => v.id_veterinario = inp.id_veterinario) with
  | none => [db]
  | some _ =>
  match db.consultas.find? (fun c => c.id_triaje = inp.id_triaje) with
  | some _ => [db]
  | none =>
      let nueva := nuevaConsulta db inp now
      let db1 := { db with consultas := db.consultas ++ [nueva] }
      let db2 := { db1 with
        veterinarios :=
          (cambiar_disposicion db1.veterinarios inp.id_veterinario "Ocupado").2 }
      match db2.solicitudes.find?
          (fun s => s.id_solicitud = triaje_obj.id_solicitud) with
      | none => [db, db1, db2]
      | some solicitud_obj =>
          let db3 := { db2 with
            solicitudes :=
              (cambiar_estado db2.solicitudes triaje_obj.id_solicitud
                "En atencion").2 }
          let peso := if triaje_obj.peso_mascota ≠ 0 then
                        some triaje_obj.peso_mascota
                      else none
          let db4 := { db3 with
            historial :=
              add_evento_consulta db3.historial solicitud_obj.id_mascota
                nueva.id_consulta inp.id_veterinario (descripcionConsulta inp)
                peso now }
          [db, db1, db2, db3, db4]

/-! ## Helper lemmas about `updateFirst` -/

theorem updateFirst_length (p : α → Bool) (f : α → α) (l : List α) :
    (updateFirst p f l).length = l.length := by
  induction l with
  | nil => rfl
  | cons x rest ih =>
      unfold updateFirst
      by_cases hx : p x <;> simp [hx, ih]

theorem find?_updateFirst (p : α → Bool) (f : α → α) (l : List α) (a : α)
    (h : l.find? p = some a) (hf : p (f a) = true) :
    (updateFirst p f l).find? p = some (f a) := by
  induction l with
  | nil => simp at h
  | cons x rest ih =>
      cases hx : p x with
      | true =>
          rw [List.find?_cons_of_pos _ hx] at h
          injection h with h
          subst h
          simp [updateFirst, hx, List.find?_cons_of_pos _ hf]
      | false =>
          rw [List.find?_cons_of_neg _ (by simp [hx])] at h
          simp only [updateFirst, hx]
          rw [if_neg (by simp), List.find?_cons_of_neg _ (by simp [hx])]
          exact ih h

theorem mem_updateFirst (p : α → Bool) (f : α → α) :
    ∀ (l : List α) (x : α), x ∈ updateFirst p f l →
      x ∈ l ∨ ∃ a ∈ l, p a = true ∧ x = f a
  | [], x, hx => by simp [updateFirst] at hx
  | y :: rest, x, hx => by
      cases hy : p y with
      | true =>
          rw [updateFirst, if_pos hy] at hx
          rcases List.mem_cons.mp hx with hx | hx
          · exact Or.inr ⟨y, List.mem_cons_self y rest, hy, hx⟩
          · exact Or.inl (List.mem_cons_of_mem y hx)
      | false =>
          rw [updateFirst, if_neg (by simp [hy])] at hx
          rcases List.mem_cons.mp hx with hx | hx
          · exact Or.inl (by simp [hx])
          · rcases mem_updateFirst p f rest x hx with h | ⟨a, ha, hpa, hfa⟩
            · exact Or.inl (List.mem_cons_of_mem y h)
            · exact Or.inr ⟨a, List.mem_cons_of_mem y ha, hpa, hfa⟩

theorem updateFirst_of_find?_eq_none (p : α → Bool) (f : α → α) (l : List α)
    (h : l.find? p = none) : updateFirst p f l = l := by
  induction l with
  | nil => rfl
  | cons x rest ih =>
      rw [List.find?_eq_none] at h
      have hx : p x = false := by
        simpa using h x (List.mem_cons_self x rest)
      simp only [updateFirst, hx]
      rw [if_neg (by simp)]
      rw [ih (List.find?_eq_none.mpr fun y hy => h y (List.mem_cons_of_mem x hy))]

/-! ## Claim theorems: authentication and authorization -/

/-- C6: `verify_permission` is a pure lookup in the fixed per-role permission
table: it equals the table lookup with default `False`; any user type outside
`Administrador`/`Veterinario`/`Recepcionista` gets `False` for every
permission; a permission name absent from the role's map gets `False`; and
every permission in the `Administrador` map is `True`. -/
theorem verify_permission_spec (user_type permission : String) :
    verify_permission user_type permission =
      ((get_user_permissions user_type).lookup permission).getD false ∧
    (user_type ∉ (["Administrador", "Veterinario", "Recepcionista"] : List String) →
      verify_permission user_type permission = false) ∧
    ((get_user_permissions user_type).lookup permission = none →
      verify_permission user_type permission = false) ∧
    (∀ entry ∈ get_user_permissions "Administrador", entry.2 = true) := by
  refine ⟨rfl, ?_, ?_, by decide⟩
  · intro h
    simp only [List.mem_cons, List.not_mem_nil, or_false, not_or] at h
    obtain ⟨h1, h2, h3⟩ := h
    simp [verify_permission, get_user_permissions, h1, h2, h3]
  · intro h
    simp [verify_permission, h]

theorem verify_permission_spec_witness :
    verify_permission "Cliente" "ver_dashboard" = false ∧
    verify_permission "Administrador" "borrar_todo" = false :=
  ⟨(verify_permission_spec "Cliente" "ver_dashboard").2.1 (by decide),
   (verify_permission_spec "Administrador" "borrar_todo").2.2.1 (by decide)⟩

/-- C5: with usernames unique (the `usuarios.username` column carries a
UNIQUE constraint), `authenticate_user` answers non-`None` exactly when some
stored user has the given username, `estado = "Activo"`, and a `contraseña`
that is string-equal to the supplied password; otherwise it answers `None`. -/
theorem authenticate_user_isSome_iff (usuarios : List Usuario)
    (username password : String)
    (huniq : usuarios.Pairwise (fun a b => a.username ≠ b.username)) :
    (authenticate_user usuarios username password).isSome = true ↔
      ∃ u ∈ usuarios, u.username = username ∧ u.estado = "Activo" ∧
        u.contrasena = password := by
  cases hfind : usuarios.find? (fun u => u.username = username && u.estado = "Activo") with
  | none =>
      rw [List.find?_eq_none] at hfind
      simp only [authenticate_user, List.find?_eq_none.mpr hfind]
      constructor
      · intro h
        simp at h
      · rintro ⟨u, hu, h1, h2, _⟩
        have := hfind u hu
        simp [h1, h2] at this
  | some u =>
      have hp := List.find?_some hfind
      have hmem := List.mem_of_find?_eq_some hfind
      simp only [Bool.and_eq_true, decide_eq_true_eq] at hp
      by_cases hpw : u.contrasena = password
      · simp only [authenticate_user, hfind, hpw, ne_eq, not_true_eq_false,
          if_false, Option.isSome_some, true_iff]
        exact ⟨u, hmem, hp.1, hp.2, hpw⟩
      · simp only [authenticate_user, hfind, ne_eq, hpw, not_false_eq_true,
          if_true, Option.isSome_none]
        refine iff_of_false (by simp) ?_
        rintro ⟨w, hw, hwname, hwestado, hwpw⟩
        have hwu : w = u := by
          by_contra hne
          have hsym : Symmetric (fun a b : Usuario => a.username ≠ b.username) :=
            fun a b h => Ne.symm h
          exact (huniq.forall hsym hw hmem hne) (hwname.trans hp.1.symm)
        exact hpw (hwu ▸ hwpw)

theorem authenticate_user_isSome_iff_witness :
    (authenticate_user [⟨1, "ana", "secret", "Administrador", "Activo"⟩]
      "ana" "secret").isSome = true :=
  (authenticate_user_isSome_iff _ "ana" "secret" (by decide)).mpr
    ⟨⟨1, "ana", "secret", "Administrador", "Activo"⟩, by decide, rfl, rfl, rfl⟩

/-- C8: `change_password` is atomic on error — a missing user id, a wrong
current password (checked before the length, so its message wins even for a
short new password), or a new password shorter than 3 characters each return
`(False, msg)` with the table untouched; when all three checks pass it
returns `(True, msg)` and the user's stored `contraseña` equals the new
password. -/
theorem change_password_spec (usuarios : List Usuario) (uid : Nat)
    (cur new : String) :
    (usuarios.find? (fun u => u.id_usuario = uid) = none →
      change_password usuarios uid cur new =
        ((false, "Usuario no encontrado"), usuarios)) ∧
    (∀ u, usuarios.find? (fun u => u.id_usuario = uid) = some u →
      u.contrasena ≠ cur →
      change_password usuarios uid cur new =
        ((false, "Contraseña actual incorrecta"), usuarios)) ∧
    (∀ u, usuarios.find? (fun u => u.id_usuario = uid) = some u →
      u.contrasena = cur → new.length < 3 →
      change_password usuarios uid cur new =
        ((false, "La nueva contraseña debe tener al menos 3 caracteres"),
         usuarios)) ∧
    (∀ u, usuarios.find? (fun u => u.id_usuario = uid) = some u →
      u.contrasena = cur → 3 ≤ new.length →
      (change_password usuarios uid cur new).1 =
        (true, "Contraseña cambiada exitosamente") ∧
      (change_password usuarios uid cur new).2.find?
          (fun x => x.id_usuario = uid) = some { u with contrasena := new }) := by
  refine ⟨?_, ?_, ?_, ?_⟩
  · intro h
    simp [change_password, h]
  · intro u hu hpw
    simp [change_password, hu, hpw]
  · intro u hu hpw hlen
    simp [change_password, hu, hpw, hlen]
  · intro u hu hpw hlen
    have hid : u.id_usuario = uid := by simpa using List.find?_some hu
    constructor
    · simp [change_password, hu, hpw, Nat.not_lt.mpr hlen]
    · have hres : (change_password usuarios uid cur new).2 =
          setPasswordById usuarios uid new := by
        simp [change_password, hu, hpw, Nat.not_lt.mpr hlen]
      rw [hres]
      exact find?_updateFirst _ _ usuarios u hu (by simp [hid])

theorem change_password_spec_witness :
    (change_password [⟨1, "ana", "vieja", "Administrador", "Activo"⟩]
        1 "vieja" "nueva").1 = (true, "Contraseña cambiada exitosamente") ∧
    (change_password [⟨1, "ana", "vieja", "Administrador", "Activo"⟩]
        1 "vieja" "nueva").2.find? (fun x => x.id_usuario = 1) =
      some ⟨1, "ana", "nueva", "Administrador", "Activo"⟩ :=
  (change_password_spec [⟨1, "ana", "vieja", "Administrador", "Activo"⟩]
      1 "vieja" "nueva").2.2.2
    ⟨1, "ana", "vieja", "Administrador", "Activo"⟩ (by decide) rfl (by decide)

/-- C9: `reset_password` asks for neither the old password nor an active
account: for every stored user — its `estado` unconstrained, so an
`Inactivo` account qualifies — and any new password of length at least 3 it
overwrites the stored `contraseña` and returns `(True, msg)`; it only rejects
a username that does not exist or a new password shorter than 3 characters. -/
theorem reset_password_spec (usuarios : List Usuario) (username new : String) :
    (usuarios.find? (fun u => u.username = username) = none →
      reset_password usuarios username new =
        ((false, "Usuario no encontrado"), usuarios)) ∧
    (∀ u, usuarios.find? (fun u => u.username = username) = some u →
      new.length < 3 →
      reset_password usuarios username new =
        ((false, "La contraseña debe tener al menos 3 caracteres"), usuarios)) ∧
    (∀ u, usuarios.find? (fun u => u.username = username) = some u →
      3 ≤ new.length →
      (reset_password usuarios username new).1 =
        (true, "Contraseña reseteada exitosamente") ∧
      (reset_password usuarios username new).2.find?
          (fun x => x.username = username) =
        some { u with contrasena := new }) := by
  refine ⟨?_, ?_, ?_⟩
  · intro h
    simp [reset_password, h]
  · intro u hu hlen
    simp [reset_password, hu, hlen]
  · intro u hu hlen
    have hname : u.username = username := by simpa using List.find?_some hu
    constructor
    · simp [reset_password, hu, Nat.not_lt.mpr hlen]
    · have hres : (reset_password usuarios username new).2 =
          setPasswordByUsername usuarios username new := by
        simp [reset_password, hu, Nat.not_lt.mpr hlen]
      rw [hres]
      exact find?_updateFirst _ _ usuarios u hu (by simp [hname])

theorem reset_password_spec_witness :
    (reset_password [⟨7, "luis", "perdida", "Veterinario", "Inactivo"⟩]
        "luis" "nueva").1 = (true, "Contraseña reseteada exitosamente") ∧
    (reset_password [⟨7, "luis", "perdida", "Veterinario", "Inactivo"⟩]
        "luis" "nueva").2.find? (fun x => x.username = "luis") =
      some ⟨7, "luis", "nueva", "Veterinario", "Inactivo"⟩ :=
  (reset_password_spec [⟨7, "luis", "perdida", "Veterinario", "Inactivo"⟩]
      "luis" "nueva").2.2
    ⟨7, "luis", "perdida", "Veterinario", "Inactivo"⟩ (by decide) (by decide)

/-! ## Claim theorems: solicitud state changes -/

/-- C2: `cambiar_estado` overwrites `estado` unconditionally — for every
stored solicitud and every new-state string it stores the given value (no
legal-prior-state check: neither the current `estado` nor `nuevo_estado` is
constrained), returning the refreshed row; rows with another id are left in
place and no row is created or deleted; for a missing id it returns `None`
and the table is unchanged. -/
theorem cambiar_estado_spec (solicitudes : List SolicitudAtencion)
    (sid : Nat) (nuevo : String) :
    (solicitudes.find? (fun s => s.id_solicitud = sid) = none →
      cambiar_estado solicitudes sid nuevo = (none, solicitudes)) ∧
    (∀ s, solicitudes.find? (fun s => s.id_solicitud = sid) = some s →
      (cambiar_estado solicitudes sid nuevo).1 = some { s with estado := nuevo } ∧
      (cambiar_estado solicitudes sid nuevo).2.find?
          (fun x => x.id_solicitud = sid) = some { s with estado := nuevo } ∧
      (∀ x ∈ (cambiar_estado solicitudes sid nuevo).2,
        x.id_solicitud ≠ sid → x ∈ solicitudes) ∧
      (cambiar_estado solicitudes sid nuevo).2.length = solicitudes.length) := by
  constructor
  · intro h
    simp [cambiar_estado, h]
  · intro s hs
    have hid : s.id_solicitud = sid := by simpa using List.find?_some hs
    have hres : (cambiar_estado solicitudes sid nuevo).2 =
        updateFirst (fun x => x.id_solicitud = sid)
          (fun x => { x with estado := nuevo }) solicitudes := by
      simp [cambiar_estado, hs]
    refine ⟨by simp [cambiar_estado, hs], ?_, ?_, ?_⟩
    · rw [hres]
      exact find?_updateFirst _ _ solicitudes s hs (by simp [hid])
    · intro x hx hne
      rw [hres] at hx
      rcases mem_updateFirst _ _ _ x hx with h | ⟨a, ha, hpa, hfa⟩
      · exact h
      · exfalso
        apply hne
        subst hfa
        simpa using hpa
    · rw [hres]
      exact updateFirst_length _ _ _

theorem cambiar_estado_spec_witness :
    (cambiar_estado [⟨1, 2, 3, none, "Consulta normal", "Completada"⟩]
        1 "Pendiente").1 =
      some ⟨1, 2, 3, none, "Consulta normal", "Pendiente"⟩ :=
  ((cambiar_estado_spec [⟨1, 2, 3, none, "Consulta normal", "Completada"⟩]
      1 "Pendiente").2 ⟨1, 2, 3, none, "Consulta normal", "Completada"⟩
    (by decide)).1

/-- C3: the estado-update endpoint rejects a value outside the five-state
enumeration with HTTP 400 leaving the table unchanged, answers HTTP 404 for a
missing solicitud, and otherwise assigns any of the five states to the
solicitud irrespective of its current `estado`, answering 200. -/
theorem actualizar_estado_solicitud_spec (solicitudes : List SolicitudAtencion)
    (sid : Nat) (nuevo : String) :
    (nuevo ∉ estados_validos →
      actualizar_estado_solicitud solicitudes sid nuevo =
        (.err 400 "Estado inválido", solicitudes)) ∧
    (nuevo ∈ estados_validos →
      solicitudes.find? (fun s => s.id_solicitud = sid) = none →
      actualizar_estado_solicitud solicitudes sid nuevo =
        (.err 404 "Solicitud no encontrada", solicitudes)) ∧
    (∀ s, nuevo ∈ estados_validos →
      solicitudes.find? (fun s => s.id_solicitud = sid) = some s →
      (actualizar_estado_solicitud solicitudes sid nuevo).1 =
        .ok 200 { s with estado := nuevo } ∧
      (actualizar_estado_solicitud solicitudes sid nuevo).2.find?
          (fun x => x.id_solicitud = sid) = some { s with estado := nuevo }) := by
  refine ⟨?_, ?_, ?_⟩
  · intro h
    simp [actualizar_estado_solicitud, h]
  · intro h hnone
    simp [actualizar_estado_solicitud, h, cambiar_estado, hnone]
  · intro s h hs
    have hspec := (cambiar_estado_spec solicitudes sid nuevo).2 s hs
    have h1 := hspec.1
    have h2 := hspec.2.1
    cases hcall : cambiar_estado solicitudes sid nuevo with
    | mk fst snd =>
        rw [hcall] at h1 h2
        simp only at h1 h2
        subst h1
        constructor
        · simp [actualizar_estado_solicitud, h, hcall]
        · simpa [actualizar_estado_solicitud, h, hcall] using h2

theorem actualizar_estado_solicitud_spec_witness :
    (actualizar_estado_solicitud
        [⟨9, 2, 3, some 50, "Consulta urgente", "Cancelada"⟩]
        9 "En atencion").1 =
      .ok 200 ⟨9, 2, 3, some 50, "Consulta urgente", "En atencion"⟩ :=
  ((actualizar_estado_solicitud_spec
      [⟨9, 2, 3, some 50, "Consulta urgente", "Cancelada"⟩] 9 "En atencion").2.2
    ⟨9, 2, 3, some 50, "Consulta urgente", "Cancelada"⟩
    (by decide) (by decide)).1

/-! ## Claim theorems: citas -/

/-- C4: the only transitions `cancelar_cita` and `marcar_atendida` perform
are `Programada → Cancelada` and `Programada → Atendida` respectively; an
existing cita in any other state is returned as is with the table unchanged,
so a cita never leaves `Cancelada` or `Atendida`. -/
theorem cita_transitions_spec (citas : List Cita) (cid : Nat) :
    (∀ c, citas.find? (fun x => x.id_cita = cid) = some c →
      c.estado_cita = "Programada" →
      (cancelar_cita citas cid).1 = some { c with estado_cita := "Cancelada" } ∧
      (cancelar_cita citas cid).2.find? (fun x => x.id_cita = cid) =
        some { c with estado_cita := "Cancelada" } ∧
      (marcar_atendida citas cid).1 = some { c with estado_cita := "Atendida" } ∧
      (marcar_atendida citas cid).2.find? (fun x => x.id_cita = cid) =
        some { c with estado_cita := "Atendida" }) ∧
    (∀ c, citas.find? (fun x => x.id_cita = cid) = some c →
      c.estado_cita ≠ "Programada" →
      cancelar_cita citas cid = (some c, citas) ∧
      marcar_atendida citas cid = (some c, citas)) := by
  constructor
  · intro c hc hprog
    have hid : c.id_cita = cid := by simpa using List.find?_some hc
    have hres1 : (cancelar_cita citas cid).2 =
        updateFirst (fun x => x.id_cita = cid)
          (fun x => { x with estado_cita := "Cancelada" }) citas := by
      simp [cancelar_cita, hc, hprog]
    have hres2 : (marcar_atendida citas cid).2 =
        updateFirst (fun x => x.id_cita = cid)
          (fun x => { x with estado_cita := "Atendida" }) citas := by
      simp [marcar_atendida, hc, hprog]
    refine ⟨by simp [cancelar_cita, hc, hprog], ?_,
      by simp [marcar_atendida, hc, hprog], ?_⟩
    · rw [hres1]
      exact find?_updateFirst _ _ citas c hc (by simp [hid])
    · rw [hres2]
      exact find?_updateFirst _ _ citas c hc (by simp [hid])
  · intro c hc hprog
    exact ⟨by simp [cancelar_cita, hc, hprog], by simp [marcar_atendida, hc, hprog]⟩

theorem cita_transitions_spec_witness :
    (cancelar_cita [⟨1, 10, "Programada"⟩] 1).1 = some ⟨1, 10, "Cancelada"⟩ ∧
    marcar_atendida [⟨2, 10, "Cancelada"⟩] 2 =
      (some ⟨2, 10, "Cancelada"⟩, [⟨2, 10, "Cancelada"⟩]) :=
  ⟨((cita_transitions_spec [⟨1, 10, "Programada"⟩] 1).1
      ⟨1, 10, "Programada"⟩ (by decide) rfl).1,
   ((cita_transitions_spec [⟨2, 10, "Cancelada"⟩] 2).2
      ⟨2, 10, "Cancelada"⟩ (by decide) (by decide)).2⟩

/-- `verificar_disponibilidad` with a truthy `exclude_id` answers `True`
exactly when every `Programada` cita at the requested datetime is the
excluded one. -/
theorem verificar_disponibilidad_some_iff (citas : List Cita)
    (fecha cid : Nat) (hid : 1 ≤ cid) :
    verificar_disponibilidad citas fecha (some cid) = true ↔
      ∀ c ∈ citas, c.fecha_hora_programada = fecha →
        c.estado_cita = "Programada" → c.id_cita = cid := by
  have htr : pyTruthy (some cid) = true := by
    simp [pyTruthy]
    omega
  rw [verificar_disponibilidad]
  simp only [htr, if_true, Option.isNone_iff_eq_none, List.head?_eq_none_iff,
    List.filter_eq_nil_iff]
  constructor
  · intro h c hc hf hp
    by_contra hne
    refine h c ?_ ?_
    · exact List.mem_filter.mpr ⟨hc, by simp [hf, hp]⟩
    · simpa using hne
  · intro h c hc
    rcases List.mem_filter.mp hc with ⟨hmem, hpred⟩
    simp only [Bool.and_eq_true, decide_eq_true_eq] at hpred
    have := h c hmem hpred.1 hpred.2
    simp [this]

/-- C10: `reprogramar_cita` tests slot availability before fetching the cita:
whenever another `Programada` cita occupies the exact target datetime it
returns `None` with nothing changed — in particular also for a cita id that
does not exist; with the slot free it moves `fecha_hora_programada` only for
an existing `Programada` cita, and otherwise returns the found cita (or
`None`) with the table unchanged.  (`1 ≤ cita_id` reflects the
`AUTO_INCREMENT` primary key, which starts at 1.) -/
theorem reprogramar_cita_spec (citas : List Cita) (cid nueva : Nat)
    (hid : 1 ≤ cid) :
    ((∃ c ∈ citas, c.fecha_hora_programada = nueva ∧
        c.estado_cita = "Programada" ∧ c.id_cita ≠ cid) →
      reprogramar_cita citas cid nueva = (none, citas)) ∧
    ((∀ c ∈ citas, c.fecha_hora_programada = nueva →
        c.estado_cita = "Programada" → c.id_cita = cid) →
      (citas.find? (fun x => x.id_cita = cid) = none →
        reprogramar_cita citas cid nueva = (none, citas)) ∧
      (∀ c, citas.find? (fun x => x.id_cita = cid) = some c →
        (c.estado_cita ≠ "Programada" →
          reprogramar_cita citas cid nueva = (some c, citas)) ∧
        (c.estado_cita = "Programada" →
          (reprogramar_cita citas cid nueva).1 =
            some { c with fecha_hora_programada := nueva } ∧
          (reprogramar_cita citas cid nueva).2.find?
              (fun x => x.id_cita = cid) =
            some { c with fecha_hora_programada := nueva }))) := by
  constructor
  · rintro ⟨c, hc, hf, hp, hne⟩
    have hv : verificar_disponibilidad citas nueva (some cid) = false := by
      rcases h : verificar_disponibilidad citas nueva (some cid) with _ | _
      · rfl
      · exact absurd
          ((verificar_disponibilidad_some_iff citas nueva cid hid).mp h c hc hf hp)
          hne
    simp [reprogramar_cita, hv]
  · intro hall
    have hv : verificar_disponibilidad citas nueva (some cid) = true :=
      (verificar_disponibilidad_some_iff citas nueva cid hid).mpr hall
    constructor
    · intro hnone
      simp [reprogramar_cita, hv, hnone]
    · intro c hc
      have hcid : c.id_cita = cid := by simpa using List.find?_some hc
      constructor
      · intro hprog
        simp [reprogramar_cita, hv, hc, hprog]
      · intro hprog
        have hres : (reprogramar_cita citas cid nueva).2 =
            updateFirst (fun x => x.id_cita = cid)
              (fun x => { x with fecha_hora_programada := nueva }) citas := by
          simp [reprogramar_cita, hv, hc, hprog]
        refine ⟨by simp [reprogramar_cita, hv, hc, hprog], ?_⟩
        rw [hres]
        exact find?_updateFirst _ _ citas c hc (by simp [hcid])

theorem reprogramar_cita_spec_witness :
    reprogramar_cita [⟨1, 10, "Programada"⟩, ⟨2, 10, "Programada"⟩] 1 10 =
      (none, [⟨1, 10, "Programada"⟩, ⟨2, 10, "Programada"⟩]) :=
  (reprogramar_cita_spec [⟨1, 10, "Programada"⟩, ⟨2, 10, "Programada"⟩]
      1 10 (by decide)).1
    ⟨⟨2, 10, "Programada"⟩, by decide, rfl, rfl, by decide⟩

/-! ## Claim theorems: consulta endpoints -/

/-- C7: evaluation at the failing input.  A request that omits
`fecha_hora_solicitud` (pydantic stores the key with value `None`) against a
database holding mascota 1 and recepcionista 1, with the clock at 100: the
endpoint succeeds with 201 and initial estado `Pendiente`, but the stored
`fecha_hora_solicitud` is `None` — not the current time 100 that the code's
own comment (`Agregar timestamp actual si no se proporciona`) promises,
because `solicitud_dict.get('fecha_hora_solicitud', datetime.now())` never
falls back to its default on a key that is present. -/
theorem create_solicitud_atencion_fecha_bug :
    create_solicitud_atencion ⟨[⟨1⟩], [⟨1⟩], [], [], [], [], [], []⟩
        ⟨1, 1, "Consulta normal", none⟩ 100 =
      (.ok 201 ⟨1, 1, 1, none, "Consulta normal", "Pendiente"⟩,
       ⟨[⟨1⟩], [⟨1⟩], [⟨1, 1, 1, none, "Consulta normal", "Pendiente"⟩],
        [], [], [], [], []⟩) := by
  rfl

/-- C1 (counterexample to the claim as stated): a successful consultation
creation — triaje 1, veterinario 1 and solicitud 1 all present, no prior
consulta — leaves the `Diagnostico` table exactly as it was, at the final
state and at every intermediate committed state: the endpoint's four writes
are the consulta insert, the veterinarian disposition, the solicitud state
and the historial event, and diagnosis is not among them. -/
theorem create_consulta_diagnosticos_untouched :
    (create_consulta
        ⟨[⟨1⟩], [⟨1⟩], [⟨1, 1, 1, some 5, "Consulta normal", "Pendiente"⟩],
         [⟨1, 1, 1, 7⟩], [⟨1, 1, "Libre"⟩], [], [], [⟨1⟩]⟩
        ⟨1, 1, "Consulta general", some "tos", none, none, none, "Buena",
          false, some 50⟩ 100).1 =
      .ok 201 ⟨1, 1, 1, "Consulta general", some 50, some "tos", none, none,
        none, "Buena", false⟩ ∧
    (create_consulta
        ⟨[⟨1⟩], [⟨1⟩], [⟨1, 1, 1, some 5, "Consulta normal", "Pendiente"⟩],
         [⟨1, 1, 1, 7⟩], [⟨1, 1, "Libre"⟩], [], [], [⟨1⟩]⟩
        ⟨1, 1, "Consulta general", some "tos", none, none, none, "Buena",
          false, some 50⟩ 100).2.diagnosticos = [⟨1⟩] ∧
    ((create_consulta_states
        ⟨[⟨1⟩], [⟨1⟩], [⟨1, 1, 1, some 5, "Consulta normal", "Pendiente"⟩],
         [⟨1, 1, 1, 7⟩], [⟨1, 1, "Libre"⟩], [], [], [⟨1⟩]⟩
        ⟨1, 1, "Consulta general", some "tos", none, none, none, "Buena",
          false, some 50⟩ 100).map (fun d => d.diagnosticos)) =
      [[⟨1⟩], [⟨1⟩], [⟨1⟩], [⟨1⟩], [⟨1⟩]] := by
  refine ⟨rfl, rfl, rfl⟩

/-- C1 (amended): on a successful call whose triaje references an existing
solicitud, `create_consulta` produces a chain of five database states — the
initial one and one per independently committed write: consulta insert,
veterinarian disposition to `Ocupado`, solicitud estado to `En atencion`,
one appended historial event (and never a diagnosis row).  Each commit
changes only its own table, so an execution that fails after `k` commits
leaves the database at state `k` of the chain, the earlier writes in place
with nothing to roll them back. -/
theorem create_consulta_commit_chain (db : DB) (inp : ConsultaCreate)
    (now : Nat) (t : Triaje) (v : Veterinario) (s : SolicitudAtencion)
    (ht : db.triajes.find? (fun x => x.id_triaje = inp.id_triaje) = some t)
    (hv : db.veterinarios.find?
      (fun x => x.id_veterinario = inp.id_veterinario) = some v)
    (hc : db.consultas.find? (fun x => x.id_triaje = inp.id_triaje) = none)
    (hs : db.solicitudes.find?
      (fun x => x.id_solicitud = t.id_solicitud) = some s) :
    ∃ d1 d2 d3 d4,
      create_consulta_states db inp now = [db, d1, d2, d3, d4] ∧
      create_consulta db inp now = (.ok 201 (nuevaConsulta db inp now), d4) ∧
      d1.consultas = db.consultas ++ [nuevaConsulta db inp now] ∧
      d1.veterinarios = db.veterinarios ∧ d1.solicitudes = db.solicitudes ∧
      d1.historial = db.historial ∧ d1.diagnosticos = db.diagnosticos ∧
      d2.veterinarios.find? (fun x => x.id_veterinario = inp.id_veterinario) =
        some { v with disposicion := "Ocupado" } ∧
      d2.consultas = d1.consultas ∧ d2.solicitudes = d1.solicitudes ∧
      d2.historial = d1.historial ∧ d2.diagnosticos = d1.diagnosticos ∧
      d3.solicitudes.find? (fun x => x.id_solicitud = t.id_solicitud) =
        some { s with estado := "En atencion" } ∧
      d3.consultas = d2.consultas ∧ d3.veterinarios = d2.veterinarios ∧
      d3.historial = d2.historial ∧ d3.diagnosticos = d2.diagnosticos ∧
      (∃ ev, d4.historial = d3.historial ++ [ev] ∧
        ev.tipo_evento = "Consulta médica" ∧
        ev.id_consulta = some (nuevaConsulta db inp now).id_consulta ∧
        ev.id_diagnostico = none) ∧
      d4.consultas = d3.consultas ∧ d4.veterinarios = d3.veterinarios ∧
      d4.solicitudes = d3.solicitudes ∧ d4.diagnosticos = d3.diagnosticos := by
  have hvid : v.id_veterinario = inp.id_veterinario := by
    simpa using List.find?_some hv
  have hsid : s.id_solicitud = t.id_solicitud := by
    simpa using List.find?_some hs
  simp only [create_consulta_states, create_consulta, ht, hv, hc,
    cambiar_disposicion, cambiar_estado, add_evento_consulta, hs]
  refine ⟨_, _, _, _, rfl, rfl, rfl, rfl, rfl, rfl, rfl, ?_, rfl, rfl, rfl,
    rfl, ?_, rfl, rfl, rfl, rfl, ⟨_, rfl, rfl, rfl, rfl⟩, rfl, rfl, rfl, rfl⟩
  · exact find?_updateFirst _ _ db.veterinarios v hv (by simp [hvid])
  · exact find?_updateFirst _ _ db.solicitudes s hs (by simp [hsid])

theorem create_consulta_commit_chain_witness :
    ∃ d1 d2 d3 d4,
      create_consulta_states
          ⟨[⟨1⟩], [⟨1⟩], [⟨1, 1, 1, some 5, "Consulta normal", "Pendiente"⟩],
           [⟨1, 1, 1, 7⟩], [⟨1, 1, "Libre"⟩], [], [], [⟨1⟩]⟩
          ⟨1, 1, "Consulta general", some "tos", none, none, none, "Buena",
            false, some 50⟩ 100 =
        [⟨[⟨1⟩], [⟨1⟩], [⟨1, 1, 1, some 5, "Consulta normal", "Pendiente"⟩],
          [⟨1, 1, 1, 7⟩], [⟨1, 1, "Libre"⟩], [], [], [⟨1⟩]⟩, d1, d2, d3, d4] ∧
      create_consulta
          ⟨[⟨1⟩], [⟨1⟩], [⟨1, 1, 1, some 5, "Consulta normal", "Pendiente"⟩],
           [⟨1, 1, 1, 7⟩], [⟨1, 1, "Libre"⟩], [], [], [⟨1⟩]⟩
          ⟨1, 1, "Consulta general", some "tos", none, none, none, "Buena",
            false, some 50⟩ 100 =
        (.ok 201 (nuevaConsulta
          ⟨[⟨1⟩], [⟨1⟩], [⟨1, 1, 1, some 5, "Consulta normal", "Pendiente"⟩],
           [⟨1, 1, 1, 7⟩], [⟨1, 1, "Libre"⟩], [], [], [⟨1⟩]⟩
          ⟨1, 1, "Consulta general", some "tos", none, none, none, "Buena",
            false, some 50⟩ 100), d4) ∧
      d2.veterinarios.find? (fun x => x.id_veterinario = 1) =
        some ⟨1, 1, "Ocupado"⟩ ∧
      d3.solicitudes.find? (fun x => x.id_solicitud = 1) =
        some ⟨1, 1, 1, some 5, "Consulta normal", "En atencion"⟩ ∧
      d4.diagnosticos = [⟨1⟩] := by
  obtain ⟨d1, d2, d3, d4, h1, h2, _, _, _, _, hdg1, hfv, _, _, _, hdg2, hfs,
    _, _, _, hdg3, _, _, _, _, hdg4⟩ :=
    create_consulta_commit_chain
      ⟨[⟨1⟩], [⟨1⟩], [⟨1, 1, 1, some 5, "Consulta normal", "Pendiente"⟩],
       [⟨1, 1, 1, 7⟩], [⟨1, 1, "Libre"⟩], [], [], [⟨1⟩]⟩
      ⟨1, 1, "Consulta general", some "tos", none, none, none, "Buena",
        false, some 50⟩ 100
      ⟨1, 1, 1, 7⟩ ⟨1, 1, "Libre"⟩
      ⟨1, 1, 1, some 5, "Consulta normal", "Pendiente"⟩
      (by decide) (by decide) (by decide) (by decide)
  exact ⟨d1, d2, d3, d4, h1, h2, hfv, hfs, by rw [hdg4, hdg3, hdg2, hdg1]⟩

end VetClinic
